import Mathlib

/-!
Verification of the frame-orchestration core of the `vrs` rendering engine.

The definitions below are a shallow embedding of the Rust sources:
  * `src/rendering/swapchain.rs` — swapchain format / present-mode / extent
    negotiation, image-count request, acquire and present wrappers;
  * `src/rendering/buffer.rs` — `find_memory_type`;
  * `src/rendering/frame/mod.rs` — `Frame::draw`, `FrameSyncObjects`;
  * `src/rendering/lighting_systems/mod.rs` — the lighting pipeline's
    attachment-blend configuration;
  * `src/input/input_state.rs` — `InputStateBuffers` queries.

Driver-dependent operations (fence waits, image acquisition, queue submission,
presentation) are modelled by passing their outcomes in explicitly as an
environment record, and `Frame::draw` additionally records the sequence of
synchronisation calls it makes as an event trace, so that ordering properties
can be stated about it.
-/

namespace Vrs

/-- Constant `u32::MAX`, the sentinel value used by Vulkan surface capabilities to mean
"the extent is determined by the swapchain". -/
def u32max : Nat := 4294967295

/-- Code of `vk::Result::ERROR_OUT_OF_DATE_KHR` (vk.rs value -1000001004). -/
def ERROR_OUT_OF_DATE_KHR : Int := -1000001004

/-- Embedding of `vk::Extent2D`. -/
structure Extent2D where
  width : Nat
  height : Nat
  deriving DecidableEq, Repr

/-- The fields of `vk::SurfaceCapabilitiesKHR` read by the swapchain code. -/
structure SurfaceCapabilities where
  current_extent : Extent2D
  min_image_extent : Extent2D
  max_image_extent : Extent2D
  min_image_count : Nat
  max_image_count : Nat
  deriving DecidableEq, Repr

/-- Function `num::clamp` from the `num` crate:
`if input < min { min } else if input > max { max } else { input }`. -/
def num_clamp (input lo hi : Nat) : Nat :=
  if input < lo then lo else if input > hi then hi else input

/-- Embedding of `choose_swapchain_extent` (src/rendering/swapchain.rs:166-183): if the
capability-reported current extent's width differs from `u32::MAX` it is used
as-is, otherwise the window size is clamped component-wise into the
min/max image-extent range. -/
def choose_swapchain_extent (capabilities : SurfaceCapabilities) (size : Nat × Nat) : Extent2D :=
  if capabilities.current_extent.width ≠ u32max then
    capabilities.current_extent
  else
    { width := num_clamp size.1 capabilities.min_image_extent.width
        capabilities.max_image_extent.width
      height := num_clamp size.2 capabilities.min_image_extent.height
        capabilities.max_image_extent.height }

/-- Embedding of `vk::SurfaceFormatKHR`: a format code paired with a color-space code. -/
structure SurfaceFormat where
  format : Nat
  color_space : Nat
  deriving DecidableEq, Repr

/-- Code of `vk::Format::B8G8R8A8_SRGB` (50). -/
def FORMAT_B8G8R8A8_SRGB : Nat := 50

/-- Code of `vk::ColorSpaceKHR::SRGB_NONLINEAR` (0). -/
def COLOR_SPACE_SRGB_NONLINEAR : Nat := 0

/-- The preferred surface format pair looked for by `choose_swapchain_format`. -/
def preferredSurfaceFormat : SurfaceFormat :=
  { format := FORMAT_B8G8R8A8_SRGB, color_space := COLOR_SPACE_SRGB_NONLINEAR }

/-- The condition tested inside the loop of `choose_swapchain_format`. -/
def isPreferredFormat (f : SurfaceFormat) : Bool :=
  f.format == FORMAT_B8G8R8A8_SRGB && f.color_space == COLOR_SPACE_SRGB_NONLINEAR

/-- Embedding of `choose_swapchain_format` (src/rendering/swapchain.rs:143-153): the loop
returns the first format equal to the preferred pair; the fallback is
`available_formats.first().unwrap()`, which panics on an empty list — modelled
as `none`. -/
def choose_swapchain_format (available_formats : List SurfaceFormat) : Option SurfaceFormat :=
  match available_formats.find? isPreferredFormat with
  | some f => some f
  | none => available_formats.head?

/-- Image-count selection in `Swapchain::new` (src/rendering/swapchain.rs:24-30):
`min_image_count + 1`, then `min` with `max_image_count` when the latter is
positive. -/
def swapchain_image_count (capabilities : SurfaceCapabilities) : Nat :=
  let image_count := capabilities.min_image_count + 1
  if capabilities.max_image_count > 0 then
    min image_count capabilities.max_image_count
  else
    image_count

/-- One entry of `vk::PhysicalDeviceMemoryProperties::memory_types`. -/
structure MemoryType where
  property_flags : Nat
  deriving DecidableEq, Repr

/-- Test `vk::MemoryPropertyFlags::contains`: all required bits are present. -/
def flags_contains (flags required : Nat) : Bool :=
  flags &&& required == required

/-- The per-entry test of `find_memory_type`:
`(type_filter & (1 << i)) > 0 && memory_type.property_flags.contains(required)`. -/
def memoryTypeMatches (required_properties type_filter : Nat) (i : Nat) (mt : MemoryType) : Bool :=
  decide (type_filter &&& (1 <<< i) > 0) && flags_contains mt.property_flags required_properties

/-- The enumerated loop of `find_memory_type`, with `i` the index of the head
of the remaining list. -/
def find_memory_type_loop (required_properties type_filter : Nat) :
    List MemoryType → Nat → Except String Nat
  | [], _ => .error "failed to find suitable memory type"
  | mt :: rest, i =>
    if memoryTypeMatches required_properties type_filter i mt then
      .ok i
    else
      find_memory_type_loop required_properties type_filter rest (i + 1)

/-- Embedding of `find_memory_type` (src/rendering/buffer.rs:120-132): linear scan over the
memory-type list, returning the first index whose bit is set in `type_filter`
and whose property flags contain `required_properties`. -/
def find_memory_type (memory_types : List MemoryType)
    (required_properties type_filter : Nat) : Except String Nat :=
  find_memory_type_loop required_properties type_filter memory_types 0

/-- Embedding of `InputStateBuffers<T>` (src/input/input_state.rs), with the device state
`T` modelled extensionally as its `is_pressed` predicate over keys. -/
structure InputStateBuffers (Key : Type) where
  current : Key → Bool
  previous : Key → Bool
  any_pressed : Bool
  any_released : Bool

/-- Query `InputStateBuffers::is_pressed`: `self.current.is_pressed(key)`. -/
def InputStateBuffers.is_pressed (b : InputStateBuffers Key) (key : Key) : Bool :=
  b.current key

/-- Query `InputStateBuffers::is_released`: the source also reads
`self.current.is_pressed(key)` (src/input/input_state.rs:93-96). -/
def InputStateBuffers.is_released (b : InputStateBuffers Key) (key : Key) : Bool :=
  b.current key

/-- Query `InputStateBuffers::was_pressed`. -/
def InputStateBuffers.was_pressed (b : InputStateBuffers Key) (key : Key) : Bool :=
  !b.previous key && b.current key

/-- Query `InputStateBuffers::was_released`. -/
def InputStateBuffers.was_released (b : InputStateBuffers Key) (key : Key) : Bool :=
  b.previous key && !b.current key

/-- Decidable equality for `Except`, needed to evaluate the draw model on
concrete inputs. -/
instance [DecidableEq ε] [DecidableEq α] : DecidableEq (Except ε α) := fun x y =>
  match x, y with
  | .ok a, .ok b =>
    if h : a = b then .isTrue (by rw [h]) else .isFalse (by intro hh; cases hh; exact h rfl)
  | .error a, .error b =>
    if h : a = b then .isTrue (by rw [h]) else .isFalse (by intro hh; cases hh; exact h rfl)
  | .ok _, .error _ => .isFalse (by intro h; cases h)
  | .error _, .ok _ => .isFalse (by intro h; cases h)

/-- The error type of `anyhow::Result` as used by the frame code: every error
produced on the draw path wraps a `vk::Result` code. -/
inductive DrawError where
  | vk (code : Int)
  deriving DecidableEq, Repr

/-- Embedding of `Swapchain::acquire_next_image` (src/rendering/swapchain.rs:87-94): forwards
the driver's result: `Ok((image_index, is_sub_optimal))` or the raw error code. -/
def Swapchain.acquire_next_image (driverResult : Except Int (Nat × Bool)) :
    Except Int (Nat × Bool) :=
  driverResult

/-- Embedding of `Swapchain::present_image` (src/rendering/swapchain.rs:96-120): the
driver's `queue_present` result is mapped so that `ERROR_OUT_OF_DATE_KHR`
becomes `Ok(true)`, a successful presentation returns its suboptimal flag, and
any other error is propagated. -/
def Swapchain.present_image (queuePresentResult : Except Int Bool) : Except DrawError Bool :=
  match queuePresentResult with
  | .ok is_sub_optimal => .ok is_sub_optimal
  | .error e => if e = ERROR_OUT_OF_DATE_KHR then .ok true else .error (.vk e)

/-- The fields of `vk::FenceCreateInfo` set by `FrameSyncObjects::new`. -/
structure FenceCreateInfo where
  signaled : Bool
  deriving DecidableEq, Repr

/-- The fence-creation parameters used by `FrameSyncObjects::new`
(src/rendering/frame/mod.rs:113): `vk::FenceCreateFlags::SIGNALED`. -/
def FrameSyncObjects.fence_create_info : FenceCreateInfo :=
  { signaled := true }

/-- Model of `FrameSyncObjects::new`: one in-flight fence per slot, each from
`fence_create_info` (src/rendering/frame/mod.rs:115-129). -/
def FrameSyncObjects.new_fence_infos (max_frames_in_flight : Nat) : List FenceCreateInfo :=
  List.replicate max_frames_in_flight FrameSyncObjects.fence_create_info

/-- Embedding of `FrameSyncObjects::next_frame` (src/rendering/frame/mod.rs:176-179):
`(frame + 1) % max_frames_in_flight`. -/
def FrameSyncObjects.next_frame (max_frames_in_flight frame : Nat) : Nat :=
  (frame + 1) % max_frames_in_flight

/-- The mutable state of `Frame` touched by `Frame::draw`. -/
structure FrameState where
  current_frame : Nat
  max_frames_in_flight : Nat
  deriving DecidableEq, Repr

/-- Outcomes of the driver calls made during one `Frame::draw`, passed in as
an explicit environment. `none` means the call succeeded; `some code` the
error it returned. `window_size` is the window's inner size at call time; the
draw code itself never reads it. -/
structure DrawEnv where
  window_size : Nat × Nat
  wait_fence_result : Option Int
  acquire_result : Except Int (Nat × Bool)
  reset_fence_result : Option Int
  submit_result : Option Int
  present_result : Except Int Bool
  deriving DecidableEq, Repr

/-- The synchronisation calls `Frame::draw` issues, in order. -/
inductive FrameEvent where
  | waitFence (slot : Nat)
  | acquireImage (slot : Nat)
  | resetFence (slot : Nat)
  | submit (slot : Nat)
  | present (image_index : Nat)
  deriving DecidableEq, Repr

/-- The result of one `Frame::draw`: the returned `Result<bool>`, the state
after the call, and the trace of synchronisation calls made. -/
structure DrawOutcome where
  result : Except DrawError Bool
  state : FrameState
  trace : List FrameEvent
  deriving DecidableEq, Repr

/-- Embedding of `Frame::draw` (src/rendering/frame/mod.rs:40-75), step by step:
wait on the current slot's fence; acquire the next image (an
`ERROR_OUT_OF_DATE_KHR` result returns `Ok(true)` immediately, any other error
is propagated); reset the slot's fence; submit; present through
`Swapchain::present_image` (propagating its error with `?`); and only then
advance `current_frame` with `next_frame`. -/
def Frame.draw (env : DrawEnv) (st : FrameState) : DrawOutcome :=
  let s := st.current_frame
  match env.wait_fence_result with
  | some e => { result := .error (.vk e), state := st, trace := [.waitFence s] }
  | none =>
    match Swapchain.acquire_next_image env.acquire_result with
    | .error e =>
      if e = ERROR_OUT_OF_DATE_KHR then
        { result := .ok true, state := st, trace := [.waitFence s, .acquireImage s] }
      else
        { result := .error (.vk e), state := st, trace := [.waitFence s, .acquireImage s] }
    | .ok (image_index, _) =>
      match env.reset_fence_result with
      | some e =>
        { result := .error (.vk e), state := st
          trace := [.waitFence s, .acquireImage s, .resetFence s] }
      | none =>
        match env.submit_result with
        | some e =>
          { result := .error (.vk e), state := st
            trace := [.waitFence s, .acquireImage s, .resetFence s, .submit s] }
        | none =>
          match Swapchain.present_image env.present_result with
          | .error e =>
            { result := .error e, state := st
              trace := [.waitFence s, .acquireImage s, .resetFence s, .submit s,
                .present image_index] }
          | .ok was_resized =>
            { result := .ok was_resized
              state := { st with
                current_frame := FrameSyncObjects.next_frame st.max_frames_in_flight s }
              trace := [.waitFence s, .acquireImage s, .resetFence s, .submit s,
                .present image_index] }

/-- Whether an `Except` value is a success. -/
def exOk : Except ε α → Bool
  | .ok _ => true
  | .error _ => false

/-- A draw cycle that runs all the way through presentation without an error:
the only path of `Frame::draw` that reaches the `next_frame` update. -/
def drawReachesPresent (env : DrawEnv) : Bool :=
  env.wait_fence_result.isNone && exOk env.acquire_result &&
    env.reset_fence_result.isNone && env.submit_result.isNone &&
    exOk (Swapchain.present_image env.present_result)

/-- Folding a sequence of draw calls over the frame state. -/
def drawMany (envs : List DrawEnv) (st : FrameState) : FrameState :=
  envs.foldl (fun s e => (Frame.draw e s).state) st

/-- The vulkano `BlendFactor` values used by the lighting pipeline. -/
inductive BlendFactor where
  | one
  | zero
  deriving DecidableEq, Repr

/-- The vulkano `BlendOp` values used by the lighting pipeline. -/
inductive BlendOp where
  | add
  | max
  deriving DecidableEq, Repr

/-- vulkano's `AttachmentBlend`, restricted to the fields the lighting
pipeline sets. -/
structure AttachmentBlend where
  enabled : Bool
  color_op : BlendOp
  color_source : BlendFactor
  color_destination : BlendFactor
  alpha_op : BlendOp
  alpha_source : BlendFactor
  alpha_destination : BlendFactor
  mask_red : Bool
  mask_green : Bool
  mask_blue : Bool
  mask_alpha : Bool
  deriving DecidableEq, Repr

/-- The attachment blend configured by `LightingSystem::prepare_system`
(src/rendering/lighting_systems/mod.rs:75-87). -/
def lighting_attachment_blend : AttachmentBlend :=
  { enabled := true
    color_op := .add
    color_source := .one
    color_destination := .one
    alpha_op := .max
    alpha_source := .one
    alpha_destination := .one
    mask_red := true
    mask_green := true
    mask_blue := true
    mask_alpha := true }

/-- Numeric value of a blend factor (Vulkan blend-equation semantics). -/
def BlendFactor.value : BlendFactor → ℚ
  | .one => 1
  | .zero => 0

/-- Application of a blend operation to the weighted source and destination
terms (Vulkan blend-equation semantics). -/
def BlendOp.apply : BlendOp → ℚ → ℚ → ℚ
  | .add, s, d => s + d
  | .max, s, d => Max.max s d

/-- One channel of the Vulkan blend equation for a normalized color
attachment: the blend-op result of the factor-weighted source (fragment
output) and destination (current attachment value), clamped to the
attachment format's representable range `[0, maxVal]`. -/
def blendChannel (op : BlendOp) (srcFactor dstFactor : BlendFactor)
    (maxVal src dst : ℚ) : ℚ :=
  Min.min (Max.max (op.apply (srcFactor.value * src) (dstFactor.value * dst)) 0) maxVal

/-- One channel of the light-accumulation attachment after a sequence of
light draws, each draw blending its fragment output into the attachment with
the configured `AttachmentBlend` (a disabled blend overwrites). -/
def accumulateLight (b : AttachmentBlend) (maxVal clear : ℚ) (draws : List ℚ) : ℚ :=
  draws.foldl
    (fun dst src =>
      if b.enabled then
        blendChannel b.color_op b.color_source b.color_destination maxVal src dst
      else
        src)
    clear

/-- Whether index `i` of the memory-type list passes the `find_memory_type`
test. -/
def qualifiesAt (mts : List MemoryType) (required_properties type_filter i : Nat) : Bool :=
  match mts.get? i with
  | some mt => memoryTypeMatches required_properties type_filter i mt
  | none => false

/-- A draw environment in which every driver call succeeds. -/
def okDrawEnv : DrawEnv :=
  { window_size := (800, 600)
    wait_fence_result := none
    acquire_result := .ok (0, false)
    reset_fence_result := none
    submit_result := none
    present_result := .ok false }

/-- A draw environment whose image acquisition reports
`ERROR_OUT_OF_DATE_KHR`. -/
def outOfDateAcquireEnv : DrawEnv :=
  { okDrawEnv with acquire_result := .error ERROR_OUT_OF_DATE_KHR }

/-- An otherwise-successful draw environment observed while the window has
zero width. -/
def zeroWidthEnv : DrawEnv :=
  { okDrawEnv with window_size := (0, 600) }

/-!
Theorems. One theorem per claim of the specification, with witnesses for the
theorems that carry hypotheses and counterexamples where the claim fails on
the code.
-/

/-- Helper: bounds of `num_clamp` when the range is well-formed. -/
theorem num_clamp_bounds (x lo hi : Nat) (h : lo ≤ hi) :
    lo ≤ num_clamp x lo hi ∧ num_clamp x lo hi ≤ hi := by
  unfold num_clamp
  split <;> [omega; skip]
  split <;> omega

/-- C10: `is_released` returns exactly what `is_pressed` returns — both read
`current.is_pressed(key)`; `is_released` neither negates the current state
nor consults the previous buffer, so a key is reported released if and only
if it is reported pressed. -/
theorem claim_C10_is_released_eq_is_pressed (Key : Type) (b : InputStateBuffers Key)
    (key : Key) (prev : Key → Bool) :
    b.is_released key = b.is_pressed key ∧
    (b.is_released key = true ↔ b.is_pressed key = true) ∧
    InputStateBuffers.is_released { b with previous := prev } key = b.is_released key :=
  ⟨rfl, Iff.rfl, rfl⟩

/-- C6: the swapchain requests `min_image_count + 1` images, clamped to
`max_image_count` when the latter is nonzero; a `max_image_count` of 0 means
unbounded and applies no clamp. -/
theorem claim_C6_image_count (cap : SurfaceCapabilities) :
    (cap.max_image_count = 0 → swapchain_image_count cap = cap.min_image_count + 1) ∧
    (cap.max_image_count ≠ 0 →
      swapchain_image_count cap = Min.min (cap.min_image_count + 1) cap.max_image_count ∧
      swapchain_image_count cap ≤ cap.max_image_count) := by
  constructor
  · intro h
    simp [swapchain_image_count, h]
  · intro h
    have hpos : 0 < cap.max_image_count := Nat.pos_of_ne_zero h
    refine ⟨?_, ?_⟩ <;> simp only [swapchain_image_count, if_pos hpos]
    exact Nat.min_le_right _ _

/-- Witness for C6 at a concrete capability set with a nonzero maximum. -/
theorem claim_C6_witness :
    (SurfaceCapabilities.max_image_count ⟨⟨0, 0⟩, ⟨0, 0⟩, ⟨0, 0⟩, 2, 3⟩ ≠ 0) ∧
    (swapchain_image_count ⟨⟨0, 0⟩, ⟨0, 0⟩, ⟨0, 0⟩, 2, 3⟩ = Min.min (2 + 1) 3 ∧
      swapchain_image_count ⟨⟨0, 0⟩, ⟨0, 0⟩, ⟨0, 0⟩, 2, 3⟩ ≤ 3) :=
  ⟨by decide, (claim_C6_image_count ⟨⟨0, 0⟩, ⟨0, 0⟩, ⟨0, 0⟩, 2, 3⟩).2 (by decide)⟩

/-- C3: when the capabilities report a fixed current extent (width differing
from the `u32::MAX` sentinel), the chosen extent is that fixed extent
regardless of the window size; otherwise the chosen extent is the window size
clamped component-wise into the min/max image-extent range, and in that case
`min ≤ extent ≤ max` holds component-wise. -/
theorem claim_C3_extent_clamping (cap : SurfaceCapabilities) (size : Nat × Nat) :
    (cap.current_extent.width ≠ u32max →
      choose_swapchain_extent cap size = cap.current_extent) ∧
    (cap.current_extent.width = u32max →
      choose_swapchain_extent cap size =
        { width := num_clamp size.1 cap.min_image_extent.width cap.max_image_extent.width
          height := num_clamp size.2 cap.min_image_extent.height cap.max_image_extent.height } ∧
      (cap.min_image_extent.width ≤ cap.max_image_extent.width →
        cap.min_image_extent.height ≤ cap.max_image_extent.height →
        cap.min_image_extent.width ≤ (choose_swapchain_extent cap size).width ∧
        (choose_swapchain_extent cap size).width ≤ cap.max_image_extent.width ∧
        cap.min_image_extent.height ≤ (choose_swapchain_extent cap size).height ∧
        (choose_swapchain_extent cap size).height ≤ cap.max_image_extent.height)) := by
  constructor
  · intro h
    simp [choose_swapchain_extent, h]
  · intro h
    have hfix : ¬cap.current_extent.width ≠ u32max := by simp [h]
    constructor
    · simp [choose_swapchain_extent, hfix]
    · intro hw hh
      have bw := num_clamp_bounds size.1 cap.min_image_extent.width cap.max_image_extent.width hw
      have bh := num_clamp_bounds size.2 cap.min_image_extent.height cap.max_image_extent.height hh
      simp only [choose_swapchain_extent, hfix, if_false]
      exact ⟨bw.1, bw.2, bh.1, bh.2⟩

/-- Witness for C3 at a concrete capability set using the sentinel extent,
with window size (50, 400) clamped into [100, 200] × [100, 150]. -/
theorem claim_C3_witness :
    (SurfaceCapabilities.current_extent ⟨⟨u32max, 0⟩, ⟨100, 100⟩, ⟨200, 150⟩, 0, 0⟩).width
        = u32max ∧
    (100 : Nat) ≤ 200 ∧ (100 : Nat) ≤ 150 ∧
    choose_swapchain_extent ⟨⟨u32max, 0⟩, ⟨100, 100⟩, ⟨200, 150⟩, 0, 0⟩ (50, 400) =
      { width := num_clamp 50 100 200, height := num_clamp 400 100 150 } ∧
    (100 ≤ (choose_swapchain_extent ⟨⟨u32max, 0⟩, ⟨100, 100⟩, ⟨200, 150⟩, 0, 0⟩ (50, 400)).width ∧
      (choose_swapchain_extent ⟨⟨u32max, 0⟩, ⟨100, 100⟩, ⟨200, 150⟩, 0, 0⟩ (50, 400)).width ≤ 200 ∧
      100 ≤ (choose_swapchain_extent ⟨⟨u32max, 0⟩, ⟨100, 100⟩, ⟨200, 150⟩, 0, 0⟩ (50, 400)).height ∧
      (choose_swapchain_extent ⟨⟨u32max, 0⟩, ⟨100, 100⟩, ⟨200, 150⟩, 0, 0⟩ (50, 400)).height ≤ 150) :=
  ⟨rfl, by decide, by decide,
    ((claim_C3_extent_clamping ⟨⟨u32max, 0⟩, ⟨100, 100⟩, ⟨200, 150⟩, 0, 0⟩ (50, 400)).2 rfl).1,
    ((claim_C3_extent_clamping ⟨⟨u32max, 0⟩, ⟨100, 100⟩, ⟨200, 150⟩, 0, 0⟩ (50, 400)).2 rfl).2
      (by decide) (by decide)⟩

/-- Helper: the loop condition of `choose_swapchain_format` holds exactly for
the preferred pair. -/
theorem isPreferredFormat_iff (f : SurfaceFormat) :
    isPreferredFormat f = true ↔ f = preferredSurfaceFormat := by
  cases f
  simp [isPreferredFormat, preferredSurfaceFormat, FORMAT_B8G8R8A8_SRGB,
    COLOR_SPACE_SRGB_NONLINEAR]

/-- C4: on a non-empty format list, selection returns the preferred
(B8G8R8A8_SRGB, SRGB_NONLINEAR) pair whenever the list contains it, and the
first element of the list otherwise — a deterministic tie-break. -/
theorem claim_C4_format_selection (l : List SurfaceFormat) (_hne : l ≠ []) :
    (preferredSurfaceFormat ∈ l →
      choose_swapchain_format l = some preferredSurfaceFormat) ∧
    (preferredSurfaceFormat ∉ l → choose_swapchain_format l = l.head?) := by
  constructor
  · intro hmem
    unfold choose_swapchain_format
    cases hfind : l.find? isPreferredFormat with
    | some f =>
      have hf := List.find?_some hfind
      rw [(isPreferredFormat_iff f).mp hf]
    | none =>
      exfalso
      have := List.find?_eq_none.mp hfind preferredSurfaceFormat hmem
      exact this ((isPreferredFormat_iff preferredSurfaceFormat).mpr rfl)
  · intro hnotmem
    unfold choose_swapchain_format
    have hfind : l.find? isPreferredFormat = none := by
      rw [List.find?_eq_none]
      intro x hx hpx
      exact hnotmem ((isPreferredFormat_iff x).mp hpx ▸ hx)
    rw [hfind]

/-- Witness for C4: a list containing the preferred pair yields exactly the
preferred pair; a list without it yields its first element. -/
theorem claim_C4_witness :
    ([⟨44, 0⟩, ⟨50, 0⟩] : List SurfaceFormat) ≠ [] ∧
    preferredSurfaceFormat ∈ ([⟨44, 0⟩, ⟨50, 0⟩] : List SurfaceFormat) ∧
    choose_swapchain_format [⟨44, 0⟩, ⟨50, 0⟩] = some preferredSurfaceFormat ∧
    ([⟨44, 0⟩, ⟨37, 0⟩] : List SurfaceFormat) ≠ [] ∧
    preferredSurfaceFormat ∉ ([⟨44, 0⟩, ⟨37, 0⟩] : List SurfaceFormat) ∧
    choose_swapchain_format [⟨44, 0⟩, ⟨37, 0⟩] = ([⟨44, 0⟩, ⟨37, 0⟩] : List SurfaceFormat).head? :=
  ⟨by decide, by decide,
    (claim_C4_format_selection [⟨44, 0⟩, ⟨50, 0⟩] (by decide)).1 (by decide),
    by decide, by decide,
    (claim_C4_format_selection [⟨44, 0⟩, ⟨37, 0⟩] (by decide)).2 (by decide)⟩

/-- C2: a stale-swapchain condition is never propagated as an error:
`present_image` maps an `ERROR_OUT_OF_DATE_KHR` presentation result to
`Ok(true)` and passes a suboptimal success flag through as `Ok(true)`, and an
`ERROR_OUT_OF_DATE_KHR` acquire makes `Frame::draw` return `Ok(true)` (the
resize-needed flag) rather than an error, so the frame loop is not unwound. -/
theorem claim_C2_stale_not_error (env : DrawEnv) (st : FrameState) :
    Swapchain.present_image (.error ERROR_OUT_OF_DATE_KHR) = .ok true ∧
    (∀ is_sub_optimal, Swapchain.present_image (.ok is_sub_optimal) = .ok is_sub_optimal) ∧
    (env.wait_fence_result = none →
      env.acquire_result = .error ERROR_OUT_OF_DATE_KHR →
      (Frame.draw env st).result = .ok true) := by
  refine ⟨by simp [Swapchain.present_image], fun b => rfl, fun hwait hacq => ?_⟩
  simp [Frame.draw, hwait, hacq, Swapchain.acquire_next_image]

/-- Witness for C2: the out-of-date-acquire environment produces `Ok(true)`. -/
theorem claim_C2_witness :
    outOfDateAcquireEnv.wait_fence_result = none ∧
    outOfDateAcquireEnv.acquire_result = .error ERROR_OUT_OF_DATE_KHR ∧
    (Frame.draw outOfDateAcquireEnv ⟨0, 2⟩).result = .ok true :=
  ⟨rfl, rfl, (claim_C2_stale_not_error outOfDateAcquireEnv ⟨0, 2⟩).2.2 rfl rfl⟩

/-- Helper: the state after one `Frame::draw` — the slot advances with
`next_frame` exactly when the call runs all the way through presentation, and
is untouched on every early return. -/
theorem draw_state_eq (env : DrawEnv) (st : FrameState) :
    (Frame.draw env st).state =
      if drawReachesPresent env then
        { st with
          current_frame :=
            FrameSyncObjects.next_frame st.max_frames_in_flight st.current_frame }
      else st := by
  obtain ⟨ws, wf, ar, rf, sr, pr⟩ := env
  cases wf with
  | some e => rfl
  | none =>
    cases ar with
    | error e =>
      by_cases he : e = ERROR_OUT_OF_DATE_KHR <;>
        simp [Frame.draw, Swapchain.acquire_next_image, drawReachesPresent, exOk, he]
    | ok v =>
      obtain ⟨ii, so⟩ := v
      cases rf with
      | some e => rfl
      | none =>
        cases sr with
        | some e => rfl
        | none =>
          cases pr with
          | ok b =>
            simp [Frame.draw, Swapchain.acquire_next_image, Swapchain.present_image,
              drawReachesPresent, exOk]
          | error e =>
            by_cases he : e = ERROR_OUT_OF_DATE_KHR <;>
              simp [Frame.draw, Swapchain.acquire_next_image, Swapchain.present_image,
                drawReachesPresent, exOk, he]

/-- Helper: a run of fully-successful draw cycles starting at slot `c % N`
rotates the slot to `(c + K) % N` after `K` cycles. -/
theorem drawMany_current_frame (envs : List DrawEnv) :
    ∀ (N c : Nat), (∀ e ∈ envs, drawReachesPresent e = true) →
      (drawMany envs { current_frame := c % N, max_frames_in_flight := N }).current_frame =
        (c + envs.length) % N := by
  induction envs with
  | nil => intro N c _; simp [drawMany]
  | cons e rest ih =>
    intro N c hall
    have he : drawReachesPresent e = true := hall e (List.mem_cons_self e rest)
    have hstep :
        (Frame.draw e { current_frame := c % N, max_frames_in_flight := N }).state =
          { current_frame := (c + 1) % N, max_frames_in_flight := N } := by
      rw [draw_state_eq, if_pos he]
      simp [FrameSyncObjects.next_frame, Nat.mod_add_mod]
    have hrest : ∀ x ∈ rest, drawReachesPresent x = true :=
      fun x hx => hall x (List.mem_cons_of_mem e hx)
    calc (drawMany (e :: rest) { current_frame := c % N, max_frames_in_flight := N }).current_frame
        = (drawMany rest
            { current_frame := (c + 1) % N, max_frames_in_flight := N }).current_frame := by
          simp [drawMany, hstep]
      _ = ((c + 1) + rest.length) % N := ih N (c + 1) hrest
      _ = (c + (rest.length + 1)) % N := by ring_nf
      _ = (c + (e :: rest).length) % N := by simp

/-- Counterexample to C1 as stated: a draw call whose image acquisition
reports `ERROR_OUT_OF_DATE_KHR` returns `Ok(true)` through the early return at
src/rendering/frame/mod.rs:50, and the slot index stays 0 instead of
advancing to `next_frame 2 0 = 1`. -/
theorem claim_C1_counterexample :
    (Frame.draw outOfDateAcquireEnv ⟨0, 2⟩).result = .ok true ∧
    (Frame.draw outOfDateAcquireEnv ⟨0, 2⟩).state.current_frame = 0 ∧
    FrameSyncObjects.next_frame 2 0 = 1 ∧
    ¬((Frame.draw outOfDateAcquireEnv ⟨0, 2⟩).state.current_frame =
        FrameSyncObjects.next_frame 2 0) := by decide

/-- C1 (amended): `next_frame` is the pure function `(slot + 1) % N` with no
other state; the slot index advances by `next_frame` after exactly those draw
calls that run all the way through presentation (successful or resize-needed
present result), and is unchanged on an out-of-date acquire or any error
early-return; consequently a sequence of `K` fully-successful draw calls
starting from slot 0 visits `0, 1, ..., N-1, 0, 1, ...`, ending at `K % N`. -/
theorem claim_C1_slot_rotation (env : DrawEnv) (st : FrameState)
    (envs : List DrawEnv) (N : Nat) :
    (∀ M f, FrameSyncObjects.next_frame M f = (f + 1) % M) ∧
    ((Frame.draw env st).state.current_frame =
      if drawReachesPresent env then
        FrameSyncObjects.next_frame st.max_frames_in_flight st.current_frame
      else st.current_frame) ∧
    ((∀ e ∈ envs, drawReachesPresent e = true) →
      (drawMany envs { current_frame := 0, max_frames_in_flight := N }).current_frame =
        envs.length % N) := by
  refine ⟨fun M f => rfl, ?_, ?_⟩
  · rw [draw_state_eq]
    split <;> rfl
  · intro hall
    have h0 : (0 : Nat) % N = 0 := Nat.zero_mod N
    have := drawMany_current_frame envs N 0 hall
    rw [h0] at this
    simpa using this

/-- Witness for C1 (amended): three fully-successful draws with two
frames-in-flight end at slot `3 % 2 = 1`. -/
theorem claim_C1_witness :
    (∀ e ∈ [okDrawEnv, okDrawEnv, okDrawEnv], drawReachesPresent e = true) ∧
    (drawMany [okDrawEnv, okDrawEnv, okDrawEnv]
        { current_frame := 0, max_frames_in_flight := 2 }).current_frame =
      ([okDrawEnv, okDrawEnv, okDrawEnv].length) % 2 :=
  ⟨by decide,
    (claim_C1_slot_rotation okDrawEnv ⟨0, 2⟩ [okDrawEnv, okDrawEnv, okDrawEnv] 2).2.2
      (by decide)⟩

/-- Counterexample to C9 as stated: `Frame::draw` called while the window
size is (0, 600) still performs the full acquire/submit/present sequence — the
code contains no zero-area check, so the draw is not skipped. -/
theorem claim_C9_counterexample :
    zeroWidthEnv.window_size.1 = 0 ∧
    FrameEvent.acquireImage 0 ∈ (Frame.draw zeroWidthEnv ⟨0, 2⟩).trace ∧
    FrameEvent.submit 0 ∈ (Frame.draw zeroWidthEnv ⟨0, 2⟩).trace ∧
    FrameEvent.present 0 ∈ (Frame.draw zeroWidthEnv ⟨0, 2⟩).trace := by decide

/-- C9 (amended): `Frame::draw` performs no zero-area window check at all —
its result, state and trace are independent of the window size, and whenever
the fence wait succeeds it attempts an acquire, including at sizes (0, H) and
(W, 0); zero-area windows are not special-cased anywhere on the draw path. -/
theorem claim_C9_no_zero_size_skip (env : DrawEnv) (st : FrameState) (size : Nat × Nat) :
    Frame.draw { env with window_size := size } st = Frame.draw env st ∧
    (env.wait_fence_result = none →
      FrameEvent.acquireImage st.current_frame ∈ (Frame.draw env st).trace) := by
  obtain ⟨ws, wf, ar, rf, sr, pr⟩ := env
  refine ⟨rfl, fun hwait => ?_⟩
  simp only at hwait
  subst hwait
  rcases ar with e | ⟨ii, so⟩
  · by_cases he : e = ERROR_OUT_OF_DATE_KHR <;>
      simp [Frame.draw, Swapchain.acquire_next_image, he]
  · rcases rf with _ | e
    · rcases sr with _ | e
      · rcases pr with e | b
        · by_cases he : e = ERROR_OUT_OF_DATE_KHR <;>
            simp [Frame.draw, Swapchain.acquire_next_image, Swapchain.present_image, he]
        · simp [Frame.draw, Swapchain.acquire_next_image, Swapchain.present_image]
      · simp [Frame.draw, Swapchain.acquire_next_image]
    · simp [Frame.draw, Swapchain.acquire_next_image]

/-- Witness for C9 (amended) at the zero-width environment. -/
theorem claim_C9_witness :
    zeroWidthEnv.wait_fence_result = none ∧
    FrameEvent.acquireImage 0 ∈ (Frame.draw zeroWidthEnv ⟨0, 2⟩).trace :=
  ⟨rfl, (claim_C9_no_zero_size_skip zeroWidthEnv ⟨0, 2⟩ (0, 600)).2 rfl⟩

/-- Helper: the trace of one `Frame::draw` is a prefix of the fixed call
sequence wait-fence, acquire, reset-fence, submit, present, always on the
current slot. -/
theorem draw_trace_cases (env : DrawEnv) (st : FrameState) :
    (Frame.draw env st).trace = [.waitFence st.current_frame] ∨
    (Frame.draw env st).trace =
      [.waitFence st.current_frame, .acquireImage st.current_frame] ∨
    (Frame.draw env st).trace =
      [.waitFence st.current_frame, .acquireImage st.current_frame,
        .resetFence st.current_frame] ∨
    (Frame.draw env st).trace =
      [.waitFence st.current_frame, .acquireImage st.current_frame,
        .resetFence st.current_frame, .submit st.current_frame] ∨
    ∃ ii, (Frame.draw env st).trace =
      [.waitFence st.current_frame, .acquireImage st.current_frame,
        .resetFence st.current_frame, .submit st.current_frame, .present ii] := by
  obtain ⟨ws, wf, ar, rf, sr, pr⟩ := env
  rcases wf with _ | e
  · rcases ar with e | ⟨ii, so⟩
    · by_cases he : e = ERROR_OUT_OF_DATE_KHR <;>
        simp [Frame.draw, Swapchain.acquire_next_image, he]
    · rcases rf with _ | e
      · rcases sr with _ | e
        · rcases pr with e | b
          · by_cases he : e = ERROR_OUT_OF_DATE_KHR <;>
              simp [Frame.draw, Swapchain.acquire_next_image, Swapchain.present_image, he]
          · simp [Frame.draw, Swapchain.acquire_next_image, Swapchain.present_image]
        · simp [Frame.draw, Swapchain.acquire_next_image]
      · simp [Frame.draw, Swapchain.acquire_next_image]
  · simp [Frame.draw]

/-- C8: the in-flight fences are created in the signaled state, and within
every draw cycle the synchronisation calls on the current slot are ordered:
any reset-fence call is preceded by a wait-fence call on the same slot, and
any submission is preceded by both a wait-fence and then a reset-fence on the
slot it goes into — no submission without a preceding wait and reset in the
same cycle. -/
theorem claim_C8_fence_discipline (n : Nat) (env : DrawEnv) (st : FrameState) :
    (∀ f ∈ FrameSyncObjects.new_fence_infos n, f.signaled = true) ∧
    (∀ i s, (Frame.draw env st).trace.get? i = some (.resetFence s) →
      s = st.current_frame ∧
      ∃ j, j < i ∧ (Frame.draw env st).trace.get? j = some (.waitFence s)) ∧
    (∀ i s, (Frame.draw env st).trace.get? i = some (.submit s) →
      s = st.current_frame ∧
      ∃ jw jr, jw < jr ∧ jr < i ∧
        (Frame.draw env st).trace.get? jw = some (.waitFence s) ∧
        (Frame.draw env st).trace.get? jr = some (.resetFence s)) := by
  refine ⟨?_, ?_, ?_⟩
  · intro f hf
    rw [List.eq_of_mem_replicate hf]
    rfl
  · intro i s hi
    rcases draw_trace_cases env st with h | h | h | h | ⟨ii, h⟩ <;>
      rw [h] at hi ⊢ <;>
      rcases i with _ | _ | _ | _ | _ | i <;>
      simp at hi
    all_goals subst hi
    all_goals exact ⟨rfl, 0, by omega, rfl⟩
  · intro i s hi
    rcases draw_trace_cases env st with h | h | h | h | ⟨ii, h⟩ <;>
      rw [h] at hi ⊢ <;>
      rcases i with _ | _ | _ | _ | _ | i <;>
      simp at hi
    all_goals subst hi
    all_goals exact ⟨rfl, 0, 2, by omega, by omega, rfl, rfl⟩

/-- Witness for C8: in a fully-successful draw the submission at trace
position 3 is preceded by the wait at 0 and the reset at 2, and with two
slots both fences are created signaled. -/
theorem claim_C8_witness :
    ((Frame.draw okDrawEnv ⟨0, 2⟩).trace.get? 3 = some (.submit 0)) ∧
    (0 = FrameState.current_frame ⟨0, 2⟩ ∧
      ∃ jw jr, jw < jr ∧ jr < 3 ∧
        (Frame.draw okDrawEnv ⟨0, 2⟩).trace.get? jw = some (.waitFence 0) ∧
        (Frame.draw okDrawEnv ⟨0, 2⟩).trace.get? jr = some (.resetFence 0)) :=
  ⟨by decide, (claim_C8_fence_discipline 2 okDrawEnv ⟨0, 2⟩).2.2 3 0 (by decide)⟩

/-- Helper: the scan loop fails when no remaining entry matches (indices taken
relative to the offset `k`). -/
theorem find_memory_type_loop_none (required_properties type_filter : Nat) :
    ∀ (mts : List MemoryType) (k : Nat),
      (∀ d mt, mts.get? d = some mt →
        memoryTypeMatches required_properties type_filter (k + d) mt = false) →
      find_memory_type_loop required_properties type_filter mts k =
        .error "failed to find suitable memory type" := by
  intro mts
  induction mts with
  | nil => intro k _; rfl
  | cons mt rest ih =>
    intro k h
    have h0 : memoryTypeMatches required_properties type_filter k mt = false := by
      have := h 0 mt rfl
      simpa using this
    rw [find_memory_type_loop, if_neg (by simp [h0])]
    refine ih (k + 1) fun d mt' hd => ?_
    have := h (d + 1) mt' hd
    rw [show k + (d + 1) = k + 1 + d by omega] at this
    exact this

/-- Helper: the scan loop returns the offset-adjusted index of the first
matching entry. -/
theorem find_memory_type_loop_first (required_properties type_filter : Nat) :
    ∀ (mts : List MemoryType) (d k : Nat) (mt : MemoryType),
      mts.get? d = some mt →
      memoryTypeMatches required_properties type_filter (k + d) mt = true →
      (∀ d' mt', d' < d → mts.get? d' = some mt' →
        memoryTypeMatches required_properties type_filter (k + d') mt' = false) →
      find_memory_type_loop required_properties type_filter mts k = .ok (k + d) := by
  intro mts
  induction mts with
  | nil => intro d k mt hget; simp at hget
  | cons hd rest ih =>
    intro d k mt hget hmatch hbefore
    cases d with
    | zero =>
      have : hd = mt := by simpa using hget
      subst this
      rw [find_memory_type_loop, if_pos (by simpa using hmatch)]
      simp
    | succ d0 =>
      have hhd : memoryTypeMatches required_properties type_filter k hd = false := by
        have := hbefore 0 hd (Nat.succ_pos d0) rfl
        simpa using this
      rw [find_memory_type_loop, if_neg (by simp [hhd])]
      have hget0 : rest.get? d0 = some mt := by simpa using hget
      have hmatch0 :
          memoryTypeMatches required_properties type_filter (k + 1 + d0) mt = true := by
        rw [show k + 1 + d0 = k + (d0 + 1) by omega]
        exact hmatch
      have hbefore0 : ∀ d' mt', d' < d0 → rest.get? d' = some mt' →
          memoryTypeMatches required_properties type_filter (k + 1 + d') mt' = false := by
        intro d' mt' hlt hget'
        have := hbefore (d' + 1) mt' (by omega) (by simpa using hget')
        rw [show k + (d' + 1) = k + 1 + d' by omega] at this
        exact this
      rw [ih d0 (k + 1) mt hget0 hmatch0 hbefore0]
      rw [show k + 1 + d0 = k + (d0 + 1) by omega]

/-- C5: `find_memory_type` scans the memory-type list in index order and
returns the first index whose bit is set in the type bitmask and whose
property flags contain the required flags; when no index qualifies it returns
the no-suitable-memory-type error, and when exactly one index qualifies it
returns that index. -/
theorem claim_C5_find_memory_type (mts : List MemoryType)
    (required_properties type_filter : Nat) :
    ((∀ i, qualifiesAt mts required_properties type_filter i = false) →
      find_memory_type mts required_properties type_filter =
        .error "failed to find suitable memory type") ∧
    (∀ i, qualifiesAt mts required_properties type_filter i = true →
      (∀ j, j < i → qualifiesAt mts required_properties type_filter j = false) →
      find_memory_type mts required_properties type_filter = .ok i) ∧
    (∀ i, qualifiesAt mts required_properties type_filter i = true →
      (∀ j, j ≠ i → qualifiesAt mts required_properties type_filter j = false) →
      find_memory_type mts required_properties type_filter = .ok i) := by
  have hfirst : ∀ i, qualifiesAt mts required_properties type_filter i = true →
      (∀ j, j < i → qualifiesAt mts required_properties type_filter j = false) →
      find_memory_type mts required_properties type_filter = .ok i := by
    intro i hq hbefore
    unfold qualifiesAt at hq
    rcases hget : mts.get? i with _ | mt
    · rw [hget] at hq; simp at hq
    · rw [hget] at hq
      have := find_memory_type_loop_first required_properties type_filter mts i 0 mt
        hget (by simpa using hq) ?_
      · simpa [find_memory_type] using this
      · intro d' mt' hlt hget'
        have hb := hbefore d' hlt
        unfold qualifiesAt at hb
        rw [hget'] at hb
        simpa using hb
  refine ⟨?_, hfirst, ?_⟩
  · intro hall
    unfold find_memory_type
    refine find_memory_type_loop_none required_properties type_filter mts 0 fun d mt hd => ?_
    have := hall d
    unfold qualifiesAt at this
    rw [hd] at this
    simpa using this
  · intro i hq huniq
    exact hfirst i hq fun j hj => huniq j (by omega)

/-- Witness for C5: with property-flag list `[0, 3]`, required flags 1 and bitmask 2,
index 0 fails the bitmask test, index 1 qualifies, and the scan returns 1. -/
theorem claim_C5_witness :
    qualifiesAt [⟨0⟩, ⟨3⟩] 1 2 1 = true ∧
    (∀ j, j < 1 → qualifiesAt [⟨0⟩, ⟨3⟩] 1 2 j = false) ∧
    find_memory_type [⟨0⟩, ⟨3⟩] 1 2 = .ok 1 :=
  ⟨by decide,
    fun j hj => by
      have : j = 0 := by omega
      subst this
      decide,
    (claim_C5_find_memory_type [⟨0⟩, ⟨3⟩] 1 2).2.1 1 (by decide)
      (fun j hj => by
        have : j = 0 := by omega
        subst this
        decide)⟩

/-- C7: the lighting subpass pipeline blends additively — color op `Add` with
source factor `One` and destination factor `One`, and `Max` on alpha — so
zero light draws leave the light-accumulation attachment at its clear value,
and two directional light draws with per-channel colors `c1`, `c2` at full
intensity accumulate to `c1 + c2`, clamped at the attachment format's
representable range `[0, maxVal]`. -/
theorem claim_C7_light_accumulation :
    (lighting_attachment_blend.enabled = true ∧
      lighting_attachment_blend.color_op = .add ∧
      lighting_attachment_blend.color_source = .one ∧
      lighting_attachment_blend.color_destination = .one ∧
      lighting_attachment_blend.alpha_op = .max) ∧
    (∀ (maxVal clear : ℚ), accumulateLight lighting_attachment_blend maxVal clear [] = clear) ∧
    (∀ (maxVal c1 c2 : ℚ), 0 ≤ c1 → c1 ≤ maxVal → 0 ≤ c2 →
      accumulateLight lighting_attachment_blend maxVal 0 [c1, c2] =
        Min.min (c1 + c2) maxVal) := by
  refine ⟨⟨rfl, rfl, rfl, rfl, rfl⟩, fun maxVal clear => rfl, fun maxVal c1 c2 h1 h1m h2 => ?_⟩
  have hstep1 :
      blendChannel .add .one .one maxVal c1 0 = c1 := by
    unfold blendChannel BlendOp.apply BlendFactor.value
    simp only [one_mul]
    rw [add_zero, max_eq_left h1, min_eq_left h1m]
  simp only [accumulateLight, lighting_attachment_blend, List.foldl, if_true]
  rw [hstep1]
  unfold blendChannel BlendOp.apply BlendFactor.value
  simp only [one_mul]
  rw [max_eq_left (by linarith), add_comm c2 c1]

/-- Witness for C7: accumulating lights 1/2 and 3/4 into a unorm channel
(range [0, 1]) saturates at `min (5/4) 1 = 1`. -/
theorem claim_C7_witness :
    (0 : ℚ) ≤ 1 / 2 ∧ (1 / 2 : ℚ) ≤ 1 ∧ (0 : ℚ) ≤ 3 / 4 ∧
    accumulateLight lighting_attachment_blend 1 0 [1 / 2, 3 / 4] =
      Min.min (1 / 2 + 3 / 4) 1 :=
  ⟨by norm_num, by norm_num, by norm_num,
    claim_C7_light_accumulation.2.2 1 (1 / 2) (3 / 4) (by norm_num) (by norm_num)
      (by norm_num)⟩

end Vrs
